import Mathlib

/-!
Verification development for the Auto-Brightness monitor-control core
(`monitor_control.py`) and the brightness curve (`auto_brightness.py`).

The Python code is shallowly embedded: every external effect (subprocess
invocation, DBus call, raw I2C syscall) is an outcome supplied by a *world*
record, and each embedded operation is a pure function of the world.  A
Python exception that escapes a function is modelled by `Except PyErr`;
a function that can never raise is given a plain return type.

String handling mirrors Python `str` semantics (split / strip / lower /
substring / int parsing) and is implemented by structural or fuel-bounded
recursion so that all definitions evaluate inside the kernel.
-/

set_option autoImplicit false

/- ## Embedded definitions -/

/-- Exceptions that the embedded Python code can raise. -/
inductive PyErr where
  | osError        -- OSError (includes FileNotFoundError raised by os.open)
  | valueError     -- ValueError (int() on a non-numeric string)
  | fileNotFound   -- FileNotFoundError raised by subprocess.run on a missing tool
  | zeroDivision   -- ZeroDivisionError
  deriving DecidableEq, Repr

/-- Python whitespace characters used by `str.strip()` / `str.split()`. -/
def pyIsWs (c : Char) : Bool :=
  c = ' ' || c = '\t' || c = '\n' || c = '\x0d' || c = '\x0b' || c = '\x0c'

/-- `str.strip()` on a character list. -/
def stripChars (l : List Char) : List Char :=
  ((l.dropWhile pyIsWs).reverse.dropWhile pyIsWs).reverse

/-- Python `s.strip()`. -/
def pyStrip (s : String) : String :=
  String.mk (stripChars s.data)

/-- Python `s.lower()` (ASCII range, which covers all strings in this program). -/
def pyLower (s : String) : String :=
  String.mk (s.data.map Char.toLower)

/-- Python `s.upper()` (ASCII range). -/
def pyUpper (s : String) : String :=
  String.mk (s.data.map Char.toUpper)

/-- Substring test on character lists: Python `needle in hay`. -/
def listSubStr (needle : List Char) : List Char → Bool
  | [] => needle.isEmpty
  | c :: t => needle.isPrefixOf (c :: t) || listSubStr needle t

/-- Python `needle in hay` for strings. -/
def pyContains (hay needle : String) : Bool :=
  listSubStr needle.data hay.data

/-- Python `s.startswith(p)`. -/
def pyStartsWith (s p : String) : Bool :=
  p.data.isPrefixOf s.data

/-- Fuel-bounded worker for Python `str.split(sep)` (non-empty separator). -/
def splitFuel (sep : List Char) : Nat → List Char → List Char → List (List Char)
  | 0, l, cur => [cur.reverse ++ l]
  | _ + 1, [], cur => [cur.reverse]
  | fuel + 1, c :: t, cur =>
    if sep ≠ [] && sep.isPrefixOf (c :: t) then
      cur.reverse :: splitFuel sep fuel ((c :: t).drop sep.length) []
    else
      splitFuel sep fuel t (c :: cur)

/-- Python `s.split(sep)` for a non-empty separator. -/
def pySplit (sep s : String) : List String :=
  (splitFuel sep.data (s.data.length + 1) s.data []).map String.mk

/-- Python `s.split(sep, 1)[1]`: everything after the first occurrence of `sep`
(here used only when the occurrence is known to exist; returns "" otherwise). -/
def afterFirst (sep : List Char) : List Char → List Char
  | [] => []
  | c :: t => if sep.isPrefixOf (c :: t) then (c :: t).drop sep.length else afterFirst sep t

/-- Python `s.split(sep, 1)[1].strip()` as used by the capabilities parser. -/
def pyAfterColonStrip (s : String) : String :=
  String.mk (stripChars (afterFirst [':'] s.data))

/-- Fuel-bounded worker for Python `str.replace(pat, repl)` (non-empty pattern). -/
def replaceFuel (pat repl : List Char) : Nat → List Char → List Char
  | 0, l => l
  | _ + 1, [] => []
  | fuel + 1, c :: t =>
    if pat ≠ [] && pat.isPrefixOf (c :: t) then
      repl ++ replaceFuel pat repl fuel ((c :: t).drop pat.length)
    else
      c :: replaceFuel pat repl fuel t

/-- Python `s.replace(pat, repl)` for a non-empty pattern. -/
def pyReplace (s pat repl : String) : String :=
  String.mk (replaceFuel pat.data repl.data (s.data.length + 1) s.data)

/-- Accumulate a decimal digit run.  Returns `none` on a non-digit character,
mirroring the `ValueError` from Python `int()`. -/
def digitsToNat : List Char → Nat → Option Nat
  | [], acc => some acc
  | c :: t, acc =>
    if c.isDigit then digitsToNat t (acc * 10 + (c.toNat - 48)) else none

/-- Python `int(s)`: optional surrounding whitespace, optional sign, at least one
digit.  `none` models the `ValueError` raised on anything else.  (Digit-group
underscores accepted by CPython are not modelled; they never occur here.) -/
def pyInt (s : String) : Option Int :=
  match stripChars s.data with
  | [] => none
  | '-' :: rest =>
    if rest.isEmpty then none else (digitsToNat rest 0).map (fun n => -(n : Int))
  | '+' :: rest =>
    if rest.isEmpty then none else (digitsToNat rest 0).map (fun n => (n : Int))
  | l => (digitsToNat l 0).map (fun n => (n : Int))

/-- `int()` lifted into the error monad: `ValueError` on failure. -/
def pyIntE (s : String) : Except PyErr Int :=
  match pyInt s with
  | some n => Except.ok n
  | none => Except.error PyErr.valueError

/-- Digit characters of a natural number (fuel-bounded base-10 expansion). -/
def natDigits : Nat → Nat → List Char → List Char
  | 0, _, acc => acc
  | fuel + 1, n, acc =>
    let d := Char.ofNat (48 + n % 10)
    if n < 10 then d :: acc else natDigits fuel (n / 10) (d :: acc)

/-- Python `str(n)` for an integer. -/
def pyStr (i : Int) : String :=
  if i < 0 then String.mk ('-' :: natDigits (i.natAbs + 1) i.natAbs [])
  else String.mk (natDigits (i.toNat + 1) i.toNat [])

/-- Python string comparison (code-point lexicographic), for `sorted`. -/
def chLt : List Char → List Char → Bool
  | [], [] => false
  | [], _ :: _ => true
  | _ :: _, [] => false
  | a :: as, b :: bs => if a < b then true else if a = b then chLt as bs else false

/-- Stable insertion into an ascending list (equal keys keep encounter order). -/
def insSorted (s : String) : List String → List String
  | [] => [s]
  | t :: ts => if chLt s.data t.data then s :: t :: ts else t :: insSorted s ts

/-- Python `sorted` on strings (stable, ascending). -/
def pySorted (l : List String) : List String :=
  l.foldl (fun acc s => insSorted s acc) []

/-- Python `d[k] = v`: replace in place if the key exists, append otherwise. -/
def dictSet {α : Type} (l : List (String × α)) (k : String) (v : α) :
    List (String × α) :=
  if l.any (fun p => p.1 = k) then
    l.map (fun p => if p.1 = k then (k, v) else p)
  else
    l ++ [(k, v)]

/-- Python `d.get(k)` / `k in d` combined: first entry with the given key. -/
def dictFind? {α : Type} (l : List (String × α)) (k : String) : Option α :=
  (l.find? (fun p => p.1 = k)).map (fun p => p.2)

/-- Python truthiness of an optional string (`None` and `''` are falsy). -/
def optTruthy : Option String → Bool
  | none => false
  | some s => s ≠ ""

/-- One VCP feature block of a capabilities dictionary:
`{'name': ..., 'values': {code: label, ...}}`. -/
structure FeatureInfo where
  name : String
  values : List (String × String)
  deriving DecidableEq, Repr

/-- The three shapes of Python `capabilities` dictionaries in the source:
`{}` (empty / failed query), `{'features': ...}` (KDE and raw records), and
`{'model': ..., 'mccs_version': ..., 'features': ...}` (ddcutil parse). -/
inductive Caps where
  | empty
  | basic (features : List (String × FeatureInfo))
  | full (model : String) (mccs_version : String)
      (features : List (String × FeatureInfo))
  deriving DecidableEq, Repr

/-- Python truthiness of a capabilities dict (`{}` is falsy). -/
def Caps.truthy : Caps → Bool
  | .empty => false
  | _ => true

/-- The `'10': {'name': 'Brightness', 'values': {}}` stub used by the KDE and
raw-I2C detectors. -/
def brightnessOnlyCaps : Caps :=
  Caps.basic [("10", { name := "Brightness", values := [] })]

/-- A monitor record.  Keys that a given backend's dict may lack are `Option`s
(`label` is absent on a ddcutil record until a `Monitor:` line is parsed;
`backend` is absent on ddcutil records until the hybrid fallback tags them). -/
structure Monitor where
  display_num : String := ""
  kde_index : Option Int := none
  model : String := "Unknown"
  label : Option String := none
  backend : Option String := none
  i2c_bus : Option String := none
  max_brightness : Option Int := none
  brightness : Option Int := none
  capabilities : Caps := Caps.empty
  ddc_available : Bool := false
  deriving DecidableEq, Repr

instance : Inhabited Monitor := ⟨{}⟩

def calculate_brightness (use_elevation_scaling : Bool)
    (min_brightness max_brightness elevation : ℚ) : ℚ :=
  if ¬ use_elevation_scaling then
    if elevation ≤ -6 then min_brightness
    else if elevation ≤ 6 then
      min_brightness + (elevation + 6) / 12 * (max_brightness - min_brightness)
    else max_brightness
  else if elevation ≤ -6 then min_brightness
  else if elevation ≤ 0 then
    min_brightness + 0.3 * (max_brightness - min_brightness) * ((elevation + 6) / 6)
  else if elevation ≤ 15 then
    min_brightness + (0.3 + 0.4 * (elevation / 15)) * (max_brightness - min_brightness)
  else if elevation ≤ 40 then
    min_brightness + (0.7 + 0.3 * ((elevation - 15) / 25)) * (max_brightness - min_brightness)
  else max_brightness

/-- The brightness fraction of the five-segment curve, factored out. -/
def scalingFactor (e : ℚ) : ℚ :=
  if e ≤ -6 then 0
  else if e ≤ 0 then 0.3 * ((e + 6) / 6)
  else if e ≤ 15 then 0.3 + 0.4 * (e / 15)
  else if e ≤ 40 then 0.7 + 0.3 * ((e - 15) / 25)
  else 1

/-- The brightness fraction of the simplified transition mode, factored out. -/
def simpleFactor (e : ℚ) : ℚ :=
  if e ≤ -6 then 0 else if e ≤ 6 then (e + 6) / 12 else 1

/-- The 5-byte DDC/CI VCP Get request written by `_vcp_get`
(source address 0x51, length 0x82 = 0x80|2, command 0x01, feature, checksum). -/
def vcp_get_frame (feature : Nat) : List Nat :=
  let len := 0x82
  let cmd := 0x01
  let chk := 0x6E ^^^ 0x51 ^^^ len ^^^ cmd ^^^ feature
  [0x51, len, cmd, feature, chk]

/-- The 7-byte DDC/CI VCP Set request written by `_vcp_set`
(length 0x84 = 0x80|4, command 0x03, feature, value hi/lo, checksum). -/
def vcp_set_frame (feature value : Nat) : List Nat :=
  let len := 0x84
  let cmd := 0x03
  let val_hi := (value >>> 8) &&& 0xFF
  let val_lo := value &&& 0xFF
  let chk := 0x6E ^^^ 0x51 ^^^ len ^^^ cmd ^^^ feature ^^^ val_hi ^^^ val_lo
  [0x51, len, cmd, feature, val_hi, val_lo, chk]

/-- Outcome of a raw I/O step: an OS error, or a value. -/
inductive IORes (α : Type) where
  | err
  | ok (a : α)
  deriving DecidableEq, Repr

/-- World for the raw driver.  Each field gives the outcome of one kind of
OS-level operation; outcomes are modelled per bus (per-call variation does not
affect any property proved here).  `edid_name` is the result of
`_read_edid_name`, which wraps all of its I/O and parsing in
`try/except Exception: pass` and therefore cannot raise. -/
structure RawWorld where
  sysfs : List String                      -- os.listdir('/sys/bus/i2c/devices')
  adapter : String → IORes String          -- reading the adapter's `name` file
  probe_open_ok : Int → Bool               -- _open_bus inside _probe_ddc
  probe_ioctl_ok : Int → Bool              -- ioctl(I2C_SLAVE, DDC_ADDR) in _probe_ddc
  probe_read_ok : Int → Bool               -- the 1-byte read in _probe_ddc
  edid_name : Int → Option String          -- _read_edid_name result
  vcp_open_ok : Int → Bool                 -- _open_bus inside _vcp_get/_vcp_set
  vcp_ioctl_ok : Int → Bool                -- ioctl(I2C_SLAVE, DDC_ADDR)
  vcp_write_ok : Int → List Nat → Bool     -- os.write of a request frame
  vcp_resp : Int → IORes (List Nat)        -- os.read(fd, 12) of the reply

/-- `_probe_ddc`: both the open (outer `except OSError`) and the ioctl+read
(inner `except OSError`) convert failure to `False`. -/
def probe_ddc (w : RawWorld) (bus : Int) : Bool :=
  if ¬ w.probe_open_ok bus then false
  else w.probe_ioctl_ok bus && w.probe_read_ok bus

/-- `_vcp_get`: note that `_open_bus` is called *outside* the `try` block, so an
OSError there propagates; every failure after the open is caught and yields
`None`, as does a reply without the expected structural markers
(`len ≥ 10`, `resp[2] = 0x02`, `resp[3] = 0x00`).  On success returns
`(current, max)` decoded big-endian from bytes 8/9 and 6/7. -/
def vcp_get (w : RawWorld) (bus : Int) (feature : Nat) :
    Except PyErr (Option (Int × Int)) :=
  if ¬ w.vcp_open_ok bus then Except.error PyErr.osError
  else Except.ok (
    if w.vcp_ioctl_ok bus then
      if w.vcp_write_ok bus (vcp_get_frame feature) then
        match w.vcp_resp bus with
        | IORes.err => none
        | IORes.ok resp =>
          if resp.length ≥ 10 ∧ resp.getD 2 0 = 0x02 ∧ resp.getD 3 0 = 0x00 then
            some (((resp.getD 8 0 <<< 8 ||| resp.getD 9 0 : Nat) : Int),
                  ((resp.getD 6 0 <<< 8 ||| resp.getD 7 0 : Nat) : Int))
          else none
      else none
    else none)

/-- `_vcp_set`: the open is again outside the `try`; ioctl/write failures are
caught and give `False`; a successful write returns `True`. -/
def vcp_set (w : RawWorld) (bus : Int) (feature value : Nat) :
    Except PyErr Bool :=
  if ¬ w.vcp_open_ok bus then Except.error PyErr.osError
  else Except.ok (w.vcp_ioctl_ok bus && w.vcp_write_ok bus (vcp_set_frame feature value))

/-- `RawDDCIMonitorControl.get_brightness(bus_str)`:
`int(bus_str)` (may raise ValueError), then `_vcp_get(bus, 0x10)`,
returning `result[0] if result else None`. -/
def raw_get_brightness (w : RawWorld) (bus_str : String) :
    Except PyErr (Option Int) :=
  match pyInt bus_str with
  | none => Except.error PyErr.valueError
  | some bus => (vcp_get w bus 0x10).map (fun r => r.map (fun q => q.1))

/-- `RawDDCIMonitorControl.set_brightness(bus_str, brightness_percent)`:
`int(bus_str)`, then `_vcp_set(bus, 0x10, brightness_percent)` — the percent
is written as the native VCP value, with no rescaling. -/
def raw_set_brightness (w : RawWorld) (bus_str : String) (brightness_percent : Nat) :
    Except PyErr Bool :=
  match pyInt bus_str with
  | none => Except.error PyErr.valueError
  | some bus => vcp_set w bus 0x10 brightness_percent

/-- Loop body of `detect_unmapped_monitors`.  The whole loop runs inside
`try/except Exception`, so an exception raised mid-scan (a `ValueError` from
`int(entry.split('-')[1])`, or the uncaught open error inside `_vcp_get`)
aborts the scan and returns the records collected so far. -/
def detect_unmapped_go (w : RawWorld) (known_buses : List String) :
    List String → List (String × Monitor) → List (String × Monitor)
  | [], acc => acc
  | entry :: rest, acc =>
    if ¬ pyStartsWith entry "i2c-" then detect_unmapped_go w known_buses rest acc
    else
      match pyInt ((pySplit "-" entry).getD 1 "") with
      | none => acc  -- ValueError escapes to the outer except: scan aborted
      | some bus =>
        if pyStr bus ∈ known_buses then detect_unmapped_go w known_buses rest acc
        else
          match w.adapter entry with
          | IORes.err => detect_unmapped_go w known_buses rest acc
          | IORes.ok raw_name =>
            if ¬ pyContains (pyStrip raw_name) "NVIDIA" then
              detect_unmapped_go w known_buses rest acc
            else if ¬ probe_ddc w bus then detect_unmapped_go w known_buses rest acc
            else
              let product := (w.edid_name bus).getD ("Unknown (i2c-" ++ pyStr bus ++ ")")
              match vcp_get w bus 0x10 with
              | Except.error _ => acc  -- exception escapes to outer except: abort
              | Except.ok none => detect_unmapped_go w known_buses rest acc
              | Except.ok (some result) =>
                detect_unmapped_go w known_buses rest
                  (dictSet acc (pyStr bus)
                    { display_num := pyStr bus
                      i2c_bus := some (pyStr bus)
                      model := product
                      label := some product
                      backend := some "raw_ddc"
                      max_brightness := some result.2
                      brightness := some result.1
                      capabilities := brightnessOnlyCaps })

/-- `RawDDCIMonitorControl.detect_unmapped_monitors(known_buses)`: scan the
sorted sysfs I2C adapter entries not already claimed.  Never raises. -/
def detect_unmapped_monitors (w : RawWorld) (known_buses : List String) :
    List (String × Monitor) :=
  detect_unmapped_go w known_buses (pySorted w.sysfs) []

/-- World in which the i2c device node cannot be opened (`os.open` raises). -/
def c3World : RawWorld where
  sysfs := []
  adapter := fun _ => IORes.err
  probe_open_ok := fun _ => false
  probe_ioctl_ok := fun _ => false
  probe_read_ok := fun _ => false
  edid_name := fun _ => none
  vcp_open_ok := fun _ => false
  vcp_ioctl_ok := fun _ => false
  vcp_write_ok := fun _ _ => false
  vcp_resp := fun _ => IORes.err

/-- World in which the open succeeds but the ioctl fails. -/
def c3OkWorld : RawWorld where
  sysfs := []
  adapter := fun _ => IORes.err
  probe_open_ok := fun _ => false
  probe_ioctl_ok := fun _ => false
  probe_read_ok := fun _ => false
  edid_name := fun _ => none
  vcp_open_ok := fun _ => true
  vcp_ioctl_ok := fun _ => false
  vcp_write_ok := fun _ _ => false
  vcp_resp := fun _ => IORes.err

/-- Outcome of one `subprocess.run([...], check=True)` invocation of the
external ddcutil tool.  `fileNotFound` models the tool not being installed
(`FileNotFoundError`, which is *not* a `CalledProcessError`); `calledErr`
models a non-zero exit (raised as `CalledProcessError` because of
`check=True`).  No `timeout=` is passed to any of these invocations, so a
`TimeoutExpired` outcome does not exist. -/
inductive RunOutcome where
  | fileNotFound
  | calledErr
  | ok (stdout : String)
  deriving DecidableEq, Repr

/-- World for the ddcutil driver: the outcome of each tool invocation, keyed
by its arguments. -/
structure DdcWorld where
  detect_run : RunOutcome                              -- ddcutil detect --brief
  caps_run : String → RunOutcome                       -- ddcutil --bus B capabilities
  getvcp_run : String → String → RunOutcome            -- ddcutil --bus B getvcp F
  setvcp_run : String → String → String → RunOutcome   -- ddcutil --bus B setvcp F V

/-- Hex-digit test for the `[0-9A-Fa-f]+` character class. -/
def pyIsHex (c : Char) : Bool :=
  c.isDigit || ('a' ≤ c && c ≤ 'f') || ('A' ≤ c && c ≤ 'F')

/-- `re.search(PAT (\d+), line)`: leftmost occurrence of the literal pattern
followed by at least one digit; returns the maximal digit run. -/
def searchTagNum (pat : List Char) : List Char → Option String
  | [] => none
  | c :: t =>
    if pat.isPrefixOf (c :: t) then
      let ds := ((c :: t).drop pat.length).takeWhile Char.isDigit
      if ds.isEmpty then searchTagNum pat t else some (String.mk ds)
    else searchTagNum pat t

/-- `re.search(r'Monitor:\s*(.+)', line).group(1).strip()` given that
`'Monitor:' in line`; `none` when nothing follows the marker (regex fails). -/
def monitorModelRaw (line : String) : Option String :=
  let rest := afterFirst "Monitor:".data line.data
  if rest.isEmpty then none else some (String.mk (stripChars rest))

/-- Update the value stored under an (existing) key. -/
def dictUpdate {α : Type} (l : List (String × α)) (k : String) (f : α → α) :
    List (String × α) :=
  l.map (fun p => if p.1 = k then (p.1, f p.2) else p)

/-- Line loop of `DDCIMonitorControl.detect_monitors`: a small state machine
keyed on `Display N` lines, with `I2C bus:` and `Monitor:` continuation lines
applied to the current monitor. -/
def parse_detect_go :
    List String → Option String → List (String × Monitor) → List (String × Monitor)
  | [], _, mons => mons
  | line0 :: rest, cur, mons =>
    let line := pyStrip line0
    if line = "" then parse_detect_go rest cur mons
    else if pyStartsWith line "Display" then
      match searchTagNum "Display ".data line.data with
      | some num =>
        parse_detect_go rest (some num)
          (dictSet mons num
            { display_num := num, i2c_bus := none, model := "Unknown",
              label := none, capabilities := Caps.empty })
      | none => parse_detect_go rest cur mons
    else
      match cur with
      | none => parse_detect_go rest cur mons
      | some c =>
        if pyContains line "I2C bus:" then
          match searchTagNum "/dev/i2c-".data line.data with
          | some num =>
            parse_detect_go rest cur
              (dictUpdate mons c (fun m => { m with i2c_bus := some num }))
          | none => parse_detect_go rest cur mons
        else if pyContains line "Monitor:" then
          match monitorModelRaw line with
          | some model_raw =>
            let parts := pySplit ":" model_raw
            let label :=
              if parts.length ≥ 2 ∧ pyStrip (parts.getD 1 "") ≠ "" then
                pyStrip (parts.getD 1 "")
              else model_raw
            parse_detect_go rest cur
              (dictUpdate mons c
                (fun m => { m with model := model_raw, label := some label }))
          | none => parse_detect_go rest cur mons
        else parse_detect_go rest cur mons

/-- `re.search(r'Feature:\s*([0-9A-Fa-f]+)\s*\((.+?)\)', line)` evaluated at
the leading `Feature:` occurrence (the caller guarantees the line starts with
it); gives `(code.upper(), name)`. -/
def searchFeature (line : String) : Option (String × String) :=
  let rest := (afterFirst "Feature:".data line.data).dropWhile pyIsWs
  let code := rest.takeWhile pyIsHex
  if code.isEmpty then none
  else
    match (rest.drop code.length).dropWhile pyIsWs with
    | '(' :: t =>
      let name := t.takeWhile (fun c => c ≠ ')')
      if name.isEmpty then none
      else if (t.drop name.length).isEmpty then none
      else some (pyUpper (String.mk code), String.mk name)
    | _ => none

/-- `re.search(r'([0-9A-Fa-f]+):\s*(.+)', line)`: leftmost hex run followed by
a colon and a non-empty remainder.  When everything after the colon is
whitespace, regex backtracking makes the group the final whitespace
character. -/
def searchValueGo : List Char → Option (String × String)
  | [] => none
  | c :: t =>
    let run := (c :: t).takeWhile pyIsHex
    if run.isEmpty then searchValueGo t
    else
      match (c :: t).drop run.length with
      | ':' :: t2 =>
        let ws := t2.takeWhile pyIsWs
        let rest := t2.drop ws.length
        if ¬ rest.isEmpty then some (pyUpper (String.mk run), String.mk rest)
        else if ¬ ws.isEmpty then
          some (pyUpper (String.mk run), String.mk [ws.getLastD ' '])
        else searchValueGo t
      | _ => searchValueGo t

/-- Line loop of `DDCIMonitorControl.get_monitor_capabilities`. -/
def parse_caps_go :
    List String → String → String → List (String × FeatureInfo) → Option String → Caps
  | [], model, mccs, feats, _ => Caps.full model mccs feats
  | line0 :: rest, model, mccs, feats, cur =>
    let line := pyStrip line0
    if pyStartsWith line "Model:" then
      parse_caps_go rest (pyAfterColonStrip line) mccs feats cur
    else if pyStartsWith line "MCCS version:" then
      parse_caps_go rest model (pyAfterColonStrip line) feats cur
    else if pyStartsWith line "Feature:" then
      match searchFeature line with
      | some fi =>
        parse_caps_go rest model mccs
          (dictSet feats fi.1 { name := fi.2, values := [] }) (some fi.1)
      | none => parse_caps_go rest model mccs feats cur
    else
      match cur with
      | some c =>
        if line ≠ "" ∧ ¬ pyContains line "Values:" then
          match searchValueGo line.data with
          | some vv =>
            parse_caps_go rest model mccs
              (dictUpdate feats c
                (fun fi => { fi with values := dictSet fi.values vv.1 vv.2 }))
              cur
          | none => parse_caps_go rest model mccs feats cur
        else parse_caps_go rest model mccs feats cur
      | none => parse_caps_go rest model mccs feats cur

/-- `DDCIMonitorControl.get_monitor_capabilities(bus)`: a non-zero exit is
caught (`{}` returned); a missing tool raises `FileNotFoundError`. -/
def ddc_get_monitor_capabilities (w : DdcWorld) (bus : String) :
    Except PyErr Caps :=
  match w.caps_run bus with
  | RunOutcome.fileNotFound => Except.error PyErr.fileNotFound
  | RunOutcome.calledErr => Except.ok Caps.empty
  | RunOutcome.ok out =>
    Except.ok (parse_caps_go (pySplit "\n" out) "Unknown" "Unknown" [] none)

/-- One step of the capabilities pass: a record with a truthy `i2c_bus` gets a
fresh capabilities query (which may itself raise when the tool is missing). -/
def attach_caps_one (w : DdcWorld) (m : Monitor) : Except PyErr Monitor :=
  match m.i2c_bus with
  | some b =>
    if b ≠ "" then
      match ddc_get_monitor_capabilities w b with
      | Except.error e => Except.error e
      | Except.ok caps => Except.ok { m with capabilities := caps }
    else Except.ok m
  | none => Except.ok m

/-- The capabilities pass at the end of `detect_monitors`. -/
def attach_caps (w : DdcWorld) :
    List (String × Monitor) → Except PyErr (List (String × Monitor))
  | [] => Except.ok []
  | (k, m) :: t =>
    match attach_caps_one w m with
    | Except.error e => Except.error e
    | Except.ok m' =>
      match attach_caps w t with
      | Except.error e => Except.error e
      | Except.ok t' => Except.ok ((k, m') :: t')

/-- `DDCIMonitorControl.detect_monitors`: run `ddcutil detect --brief`, parse
the per-display blocks, then fetch capabilities for each bus-carrying record.
Only `CalledProcessError` is caught (giving `{}`); a missing tool raises. -/
def ddc_detect_monitors (w : DdcWorld) :
    Except PyErr (List (String × Monitor)) :=
  match w.detect_run with
  | RunOutcome.fileNotFound => Except.error PyErr.fileNotFound
  | RunOutcome.calledErr => Except.ok []
  | RunOutcome.ok out => attach_caps w (parse_detect_go (pySplit "\n" out) none [])

/-- `re.search(r'current value\s*=\s*(\d+)', line)` as a character scan. -/
def searchCurValGo : List Char → Option Nat
  | [] => none
  | c :: t =>
    if "current value".data.isPrefixOf (c :: t) then
      match ((c :: t).drop 13).dropWhile pyIsWs with
      | '=' :: t2 =>
        let ds := (t2.dropWhile pyIsWs).takeWhile Char.isDigit
        if ds.isEmpty then searchCurValGo t else digitsToNat ds 0
      | _ => searchCurValGo t
    else searchCurValGo t

/-- The `for line in stdout: if 'current value' in line.lower(): ...` loop of
`get_vcp_value`. -/
def findCurrentValue : List String → Option Nat
  | [] => none
  | l :: t =>
    if pyContains (pyLower l) "current value" then
      match searchCurValGo l.data with
      | some n => some n
      | none => findCurrentValue t
    else findCurrentValue t

/-- `DDCIMonitorControl.get_vcp_value(bus, code)`. -/
def ddc_get_vcp_value (w : DdcWorld) (bus feature_code : String) :
    Except PyErr (Option Int) :=
  match w.getvcp_run bus feature_code with
  | RunOutcome.fileNotFound => Except.error PyErr.fileNotFound
  | RunOutcome.calledErr => Except.ok none
  | RunOutcome.ok out =>
    Except.ok ((findCurrentValue (pySplit "\n" out)).map (fun n => (n : Int)))

/-- `DDCIMonitorControl.set_vcp_value(bus, code, value)`: the value is passed
to the tool as `str(value)`, unmodified. -/
def ddc_set_vcp_value (w : DdcWorld) (bus feature_code : String) (value : Int) :
    Except PyErr Bool :=
  match w.setvcp_run bus feature_code (pyStr value) with
  | RunOutcome.fileNotFound => Except.error PyErr.fileNotFound
  | RunOutcome.calledErr => Except.ok false
  | RunOutcome.ok _ => Except.ok true

/-- `DDCIMonitorControl.set_brightness` = `set_vcp_value(bus, '10', percent)`. -/
def ddc_set_brightness (w : DdcWorld) (bus : String) (brightness_percent : Int) :
    Except PyErr Bool :=
  ddc_set_vcp_value w bus "10" brightness_percent

/-- `DDCIMonitorControl.get_brightness` = `get_vcp_value(bus, '10')`. -/
def ddc_get_brightness (w : DdcWorld) (bus : String) :
    Except PyErr (Option Int) :=
  ddc_get_vcp_value w bus "10"

/-- World in which the ddcutil binary is not installed: every invocation
raises `FileNotFoundError`. -/
def c4World : DdcWorld where
  detect_run := RunOutcome.fileNotFound
  caps_run := fun _ => RunOutcome.fileNotFound
  getvcp_run := fun _ _ => RunOutcome.fileNotFound
  setvcp_run := fun _ _ _ => RunOutcome.fileNotFound

/-- World in which ddcutil is installed but always exits non-zero. -/
def c4ErrWorld : DdcWorld where
  detect_run := RunOutcome.calledErr
  caps_run := fun _ => RunOutcome.calledErr
  getvcp_run := fun _ _ => RunOutcome.calledErr
  setvcp_run := fun _ _ _ => RunOutcome.calledErr

/-- Outcome of a `subprocess.run(['qdbus', ...], timeout=5)` call: either the
process infrastructure raised (timeout included — all of these sites wrap the
call in `except Exception`), or the process exited with a return code and
stdout. -/
inductive SubOutcome where
  | raised
  | exited (returncode : Int) (stdout : String)
  deriving DecidableEq, Repr

/-- World for the KDE driver, keyed by display index / call arguments. -/
structure KdeWorld where
  avail_run : SubOutcome                 -- DisplaysDBusNames query in is_available
  names_run : SubOutcome                 -- DisplaysDBusNames query in _get_display_names
  prop_run : Int → String → SubOutcome   -- Properties.Get(interface, name) on display idx
  set_run : Int → Int → SubOutcome       -- SetBrightness(value, 0) on display idx

/-- `_get_property`: all failures (non-zero exit, timeout, exception) become
`None`; success strips the stdout. -/
def kde_get_property (w : KdeWorld) (display_index : Int) (property_name : String) :
    Option String :=
  match w.prop_run display_index property_name with
  | SubOutcome.raised => none
  | SubOutcome.exited rc out => if rc = 0 then some (pyStrip out) else none

/-- `_get_display_names`: split the stripped stdout on newlines, strip each
name, drop empties; any failure gives `[]`. -/
def kde_get_display_names (w : KdeWorld) : List String :=
  match w.names_run with
  | SubOutcome.raised => []
  | SubOutcome.exited rc out =>
    if rc = 0 then ((pySplit "\n" (pyStrip out)).map pyStrip).filter (fun s => s ≠ "")
    else []

/-- `is_available`: exit code 0 and non-empty (truthy) stripped stdout. -/
def kde_is_available (w : KdeWorld) : Bool :=
  match w.avail_run with
  | SubOutcome.raised => false
  | SubOutcome.exited rc out => decide (rc = 0) && decide (pyStrip out ≠ "")

/-- Python `int(x) if x else d` for `x : Optional[str]` (`None` and `''` are
falsy); a truthy non-numeric string raises `ValueError`. -/
def pyIntDefault (o : Option String) (d : Int) : Except PyErr Int :=
  match o with
  | none => Except.ok d
  | some s => if s = "" then Except.ok d else pyIntE s

/-- Loop of `KDEScreenBrightness.detect_monitors`: parse the index out of each
display name (`ValueError` caught ⇒ skip), skip displays whose Label query
fails, then build the record — where `int()` on a truthy non-numeric
MaxBrightness/Brightness reply raises out of the loop. -/
def kde_detect_go (w : KdeWorld) :
    List String → List (String × Monitor) → Except PyErr (List (String × Monitor))
  | [], acc => Except.ok acc
  | display_name :: rest, acc =>
    match pyInt (pyReplace display_name "display" "") with
    | none => kde_detect_go w rest acc
    | some idx =>
      match kde_get_property w idx "Label" with
      | none => kde_detect_go w rest acc
      | some label =>
        match pyIntDefault (kde_get_property w idx "MaxBrightness") 10000 with
        | Except.error e => Except.error e
        | Except.ok max_brightness =>
          match pyIntDefault (kde_get_property w idx "Brightness") 0 with
          | Except.error e => Except.error e
          | Except.ok brightness =>
            kde_detect_go w rest
              (dictSet acc ("kde_" ++ pyStr idx)
                { display_num := pyStr idx
                  kde_index := some idx
                  model := label
                  label := some label
                  max_brightness := some max_brightness
                  brightness := some brightness
                  backend := some "kde"
                  capabilities := brightnessOnlyCaps })

/-- `KDEScreenBrightness.detect_monitors`. -/
def kde_detect_monitors (w : KdeWorld) : Except PyErr (List (String × Monitor)) :=
  kde_detect_go w (kde_get_display_names w) []

/-- `KDEScreenBrightness.get_brightness`: unknown id ⇒ `None`; otherwise read
the Brightness property and rescale `int(int(b) * 100 / max_val)`.  The float
quotient truncates toward zero identically to exact rational truncation at
these magnitudes, so `Int.tdiv` is the faithful model.  `int()` on a
non-numeric reply raises `ValueError`; `max_val = 0` raises
`ZeroDivisionError`. -/
def kde_get_brightness (mons : List (String × Monitor)) (w : KdeWorld)
    (monitor_id : String) : Except PyErr (Option Int) :=
  match dictFind? mons monitor_id with
  | none => Except.ok none
  | some m =>
    -- both keys are always present on records built by kde_detect_go
    let kde_index := m.kde_index.getD 0
    let max_val := m.max_brightness.getD 0
    match kde_get_property w kde_index "Brightness" with
    | some s =>
      match pyIntE s with
      | Except.error e => Except.error e
      | Except.ok n =>
        if max_val = 0 then Except.error PyErr.zeroDivision
        else Except.ok (some (Int.tdiv (n * 100) max_val))
    | none => Except.ok none

/-- `KDEScreenBrightness.set_brightness`: unknown id ⇒ `False`; otherwise
rescale `int(percent * max_val / 100)` (truncation toward zero) and issue one
SetBrightness(value, 0) call, converting any failure to `False`. -/
def kde_set_brightness (mons : List (String × Monitor)) (w : KdeWorld)
    (monitor_id : String) (brightness_percent : Int) : Bool :=
  match dictFind? mons monitor_id with
  | none => false
  | some m =>
    let kde_index := m.kde_index.getD 0
    let max_val := m.max_brightness.getD 0
    let brightness_value := Int.tdiv (brightness_percent * max_val) 100
    match w.set_run kde_index brightness_value with
    | SubOutcome.raised => false
    | SubOutcome.exited rc _ => decide (rc = 0)

/-- A property reply that `int()` can consume whenever it is truthy. -/
def numericReply (o : Option String) : Prop :=
  ∀ s, o = some s → s ≠ "" → (pyInt s).isSome

/-- A property reply that `int()` can consume whenever it is present at all
(`get_brightness` calls `int()` even on an empty reply). -/
def parsesReply (o : Option String) : Prop :=
  ∀ s, o = some s → (pyInt s).isSome

/-- World in which the service replies with non-numeric property text. -/
def c10World : KdeWorld where
  avail_run := SubOutcome.exited 0 "display1"
  names_run := SubOutcome.exited 0 "display1"
  prop_run := fun _ name =>
    if name = "Label" then SubOutcome.exited 0 "Foo"
    else if name = "MaxBrightness" then SubOutcome.exited 0 "unavailable"
    else SubOutcome.exited 0 "0"
  set_run := fun _ _ => SubOutcome.raised

/-- A registry as built from a detection pass that stored `MaxBrightness = 0`. -/
def c10ZeroMon : Monitor :=
  { display_num := "1", kde_index := some 1, model := "Foo", label := some "Foo",
    max_brightness := some 0, brightness := some 0, backend := some "kde",
    capabilities := brightnessOnlyCaps }

def c10ZeroWorld : KdeWorld where
  avail_run := SubOutcome.exited 0 "display1"
  names_run := SubOutcome.exited 0 "display1"
  prop_run := fun _ name =>
    if name = "Label" then SubOutcome.exited 0 "Foo"
    else SubOutcome.exited 0 "5"
  set_run := fun _ _ => SubOutcome.raised

/-- World in which every service call raises (service gone). -/
def kdeRaisedWorld : KdeWorld where
  avail_run := SubOutcome.raised
  names_run := SubOutcome.raised
  prop_run := fun _ _ => SubOutcome.raised
  set_run := fun _ _ => SubOutcome.raised

/-- A well-formed KDE record for exercising the amended C10 theorem. -/
def kdeSampleMon : Monitor :=
  { display_num := "1", kde_index := some 1, model := "Foo", label := some "Foo",
    max_brightness := some 100, brightness := some 50, backend := some "kde",
    capabilities := brightnessOnlyCaps }

/-- Combined world: one field per backend. -/
structure World where
  kde : KdeWorld
  ddc : DdcWorld
  raw : RawWorld

/-- The token-match test of the linking pass:
`any(part in kde_label for part in ddc_model.split(':') if len(part) > 3)`,
with both the label and the model lowered first. -/
def link_match (ddc_model kde_label : String) : Bool :=
  let kde_l := pyLower kde_label
  let ddc_m := pyLower ddc_model
  (pySplit ":" ddc_m).any (fun part => decide (part.length > 3) && pyContains kde_l part)

/-- Inner loop of the linking pass for one desktop-service record: scan the
bus-level candidates in encounter order; on the first match copy `i2c_bus`,
set `ddc_available`, copy the capabilities when they are truthy, and `break`. -/
def link_scan (kde_info : Monitor) : List Monitor → Monitor
  | [] => kde_info
  | ddc_info :: rest =>
    if link_match ddc_info.model (kde_info.label.getD "") then
      { kde_info with
        i2c_bus := ddc_info.i2c_bus
        ddc_available := true
        capabilities :=
          if ddc_info.capabilities.truthy then ddc_info.capabilities
          else kde_info.capabilities }
    else link_scan kde_info rest

/-- `{m.get('i2c_bus') for m in monitors.values() if m.get('i2c_bus')}`:
the truthy bus values of a registry (list membership models the set). -/
def claimed_buses (mons : List (String × Monitor)) : List String :=
  mons.filterMap (fun p =>
    match p.2.i2c_bus with
    | some s => if s = "" then none else some s
    | none => none)

/-- `HybridMonitorControl.detect_monitors`: seed with KDE records when the
service is available, link each to the first matching ddcutil candidate, fall
back to the ddcutil list (each tagged `backend='ddc'`) when no KDE record
exists, then add every record of the raw-I2C recovery scan (dict update). -/
def hybrid_detect_monitors (w : World) :
    Except PyErr (List (String × Monitor)) :=
  match (if kde_is_available w.kde then kde_detect_monitors w.kde
         else Except.ok []) with
  | Except.error e => Except.error e
  | Except.ok kde_mons =>
    match ddc_detect_monitors w.ddc with
    | Except.error e => Except.error e
    | Except.ok ddc_mons =>
      let linked := kde_mons.map
        (fun p => (p.1, link_scan p.2 (ddc_mons.map (fun q => q.2))))
      let base :=
        if linked.isEmpty then
          ddc_mons.map (fun p => (p.1, { p.2 with backend := some "ddc" }))
        else linked
      let known := claimed_buses base
      let raw_mons := detect_unmapped_monitors w.raw known
      Except.ok (raw_mons.foldl (fun acc p => dictSet acc p.1 p.2) base)

/-- A call into one of the three backend drivers. -/
inductive BCall where
  | kdeGet (id : String)
  | kdeSet (id : String) (percent : Int)
  | rawGet (bus : String)
  | rawSet (bus : String) (percent : Int)
  | ddcGet (bus code : String)
  | ddcSet (bus code : String) (value : Int)
  | ddcCaps (bus : String)
  deriving DecidableEq, Repr

/-- Registry state: the hybrid monitor map plus the KDE driver's own map
(`self.kde.monitors`, consulted by the KDE get/set paths). -/
structure HybridState where
  monitors : List (String × Monitor)
  kde_monitors : List (String × Monitor)

/-- `HybridMonitorControl.get_brightness`. -/
def hybrid_get_brightness (st : HybridState) (w : World) (monitor_id : String) :
    Except PyErr (Option Int) × List BCall :=
  match dictFind? st.monitors monitor_id with
  | none => (Except.ok none, [])
  | some monitor =>
    if monitor.backend = some "kde" then
      (kde_get_brightness st.kde_monitors w.kde monitor_id,
       [BCall.kdeGet monitor_id])
    else if monitor.backend = some "raw_ddc" then
      -- monitor.get('i2c_bus', monitor_id); raw records always carry a bus
      let bus := monitor.i2c_bus.getD monitor_id
      (raw_get_brightness w.raw bus, [BCall.rawGet bus])
    else
      match monitor.i2c_bus with
      | some bus =>
        if bus ≠ "" then (ddc_get_brightness w.ddc bus, [BCall.ddcGet bus "10"])
        else (Except.ok none, [])
      | none => (Except.ok none, [])

/-- `HybridMonitorControl.set_brightness`.  The raw path hands the (always
non-negative) percent to the Nat-valued raw driver via `toNat`. -/
def hybrid_set_brightness (st : HybridState) (w : World) (monitor_id : String)
    (brightness_percent : Int) : Except PyErr Bool × List BCall :=
  match dictFind? st.monitors monitor_id with
  | none => (Except.ok false, [])
  | some monitor =>
    if monitor.backend = some "kde" then
      (Except.ok (kde_set_brightness st.kde_monitors w.kde monitor_id
          brightness_percent),
       [BCall.kdeSet monitor_id brightness_percent])
    else if monitor.backend = some "raw_ddc" then
      let bus := monitor.i2c_bus.getD monitor_id
      (raw_set_brightness w.raw bus brightness_percent.toNat,
       [BCall.rawSet bus brightness_percent])
    else
      match monitor.i2c_bus with
      | some bus =>
        if bus ≠ "" then
          (ddc_set_brightness w.ddc bus brightness_percent,
           [BCall.ddcSet bus "10" brightness_percent])
        else (Except.ok false, [])
      | none => (Except.ok false, [])

/-- `HybridMonitorControl.set_vcp_value` (branch order as in the source,
including the unreachable trailing KDE-brightness fallback). -/
def hybrid_set_vcp_value (st : HybridState) (w : World)
    (monitor_id feature_code : String) (value : Int) :
    Except PyErr Bool × List BCall :=
  match dictFind? st.monitors monitor_id with
  | none => (Except.ok false, [])
  | some monitor =>
    if feature_code = "10" ∧ monitor.backend = some "kde" then
      (Except.ok (kde_set_brightness st.kde_monitors w.kde monitor_id value),
       [BCall.kdeSet monitor_id value])
    else if feature_code = "10" ∧ monitor.backend = some "raw_ddc" then
      let bus := monitor.i2c_bus.getD monitor_id
      (raw_set_brightness w.raw bus value.toNat, [BCall.rawSet bus value])
    else
      match monitor.i2c_bus with
      | some bus =>
        if bus ≠ "" ∧ monitor.backend ≠ some "raw_ddc" then
          (ddc_set_vcp_value w.ddc bus feature_code value,
           [BCall.ddcSet bus feature_code value])
        else if feature_code = "10" ∧ monitor.backend = some "kde" then
          (Except.ok (kde_set_brightness st.kde_monitors w.kde monitor_id value),
           [BCall.kdeSet monitor_id value])
        else (Except.ok false, [])
      | none =>
        if feature_code = "10" ∧ monitor.backend = some "kde" then
          (Except.ok (kde_set_brightness st.kde_monitors w.kde monitor_id value),
           [BCall.kdeSet monitor_id value])
        else (Except.ok false, [])

/-- `HybridMonitorControl.get_vcp_value`. -/
def hybrid_get_vcp_value (st : HybridState) (w : World)
    (monitor_id feature_code : String) :
    Except PyErr (Option Int) × List BCall :=
  match dictFind? st.monitors monitor_id with
  | none => (Except.ok none, [])
  | some monitor =>
    if feature_code = "10" ∧ monitor.backend = some "kde" then
      (kde_get_brightness st.kde_monitors w.kde monitor_id,
       [BCall.kdeGet monitor_id])
    else if feature_code = "10" ∧ monitor.backend = some "raw_ddc" then
      let bus := monitor.i2c_bus.getD monitor_id
      (raw_get_brightness w.raw bus, [BCall.rawGet bus])
    else
      match monitor.i2c_bus with
      | some bus =>
        if bus ≠ "" ∧ monitor.backend ≠ some "raw_ddc" then
          (ddc_get_vcp_value w.ddc bus feature_code,
           [BCall.ddcGet bus feature_code])
        else (Except.ok none, [])
      | none => (Except.ok none, [])

/-- `HybridMonitorControl.get_monitor_capabilities`: unknown id ⇒ `{}`;
a record with a truthy bus triggers a fresh ddcutil capabilities query;
otherwise the record's built-in capability stub is returned. -/
def hybrid_get_monitor_capabilities (st : HybridState) (w : World)
    (monitor_id : String) : Except PyErr Caps × List BCall :=
  match dictFind? st.monitors monitor_id with
  | none => (Except.ok Caps.empty, [])
  | some monitor =>
    match monitor.i2c_bus with
    | some bus =>
      if bus ≠ "" then
        (ddc_get_monitor_capabilities w.ddc bus, [BCall.ddcCaps bus])
      else (Except.ok monitor.capabilities, [])
    | none => (Except.ok monitor.capabilities, [])

/-- Spec-side matcher for the linking pass, following the claim's wording: some
token of the model string split on `':'`, of length at least 4, occurs
case-insensitively in the desktop-service record's label. -/
def spec_link_match (kde_label ddc_model : String) : Bool :=
  (pySplit ":" (pyLower ddc_model)).any
    (fun tok => decide (4 ≤ tok.length) && pyContains (pyLower kde_label) tok)

/-- An empty registry and a world in which every backend would fail loudly. -/
def c2State : HybridState := { monitors := [], kde_monitors := [] }

def c2World : World := { kde := kdeRaisedWorld, ddc := c4World, raw := c3World }

/-- Spec-side conversion: linear rescale of a 0–100 percent into the backend's
native `0..max_brightness_scale` unit, rounding toward zero. -/
def spec_rescale_to_native (p scale : Int) : Int :=
  Int.tdiv (p * scale) 100

/-- Spec-side inverse conversion: native reading back into 0–100,
rounding toward zero. -/
def spec_rescale_to_percent (native scale : Int) : Int :=
  Int.tdiv (native * 100) scale

/-- Boolean outcome of a SetBrightness service call. -/
def sub_ok : SubOutcome → Bool
  | SubOutcome.raised => false
  | SubOutcome.exited rc _ => decide (rc = 0)

/-- A raw-I2C record whose native brightness maximum is 255 (not 100). -/
def c6RawMon : Monitor :=
  { display_num := "9", i2c_bus := some "9", model := "Bar", label := some "Bar",
    backend := some "raw_ddc", max_brightness := some 255, brightness := some 100,
    capabilities := brightnessOnlyCaps }

def c6State : HybridState := { monitors := [("9", c6RawMon)], kde_monitors := [] }

def c6RawWorld : RawWorld where
  sysfs := []
  adapter := fun _ => IORes.err
  probe_open_ok := fun _ => false
  probe_ioctl_ok := fun _ => false
  probe_read_ok := fun _ => false
  edid_name := fun _ => none
  vcp_open_ok := fun _ => true
  vcp_ioctl_ok := fun _ => true
  vcp_write_ok := fun _ _ => true
  vcp_resp := fun _ => IORes.err

def c6World : World := { kde := kdeRaisedWorld, ddc := c4ErrWorld, raw := c6RawWorld }

/-- World whose Brightness property reply is the numeric string "40". -/
def c6KdeWorld : KdeWorld where
  avail_run := SubOutcome.exited 0 "display1"
  names_run := SubOutcome.exited 0 "display1"
  prop_run := fun _ _ => SubOutcome.exited 0 "40"
  set_run := fun _ _ => SubOutcome.raised

/-- Raw world whose VCP Get reply decodes to current 50, max 100. -/
def c6GetRawWorld : RawWorld where
  sysfs := []
  adapter := fun _ => IORes.err
  probe_open_ok := fun _ => true
  probe_ioctl_ok := fun _ => true
  probe_read_ok := fun _ => true
  edid_name := fun _ => none
  vcp_open_ok := fun _ => true
  vcp_ioctl_ok := fun _ => true
  vcp_write_ok := fun _ _ => true
  vcp_resp := fun _ => IORes.ok [0x6E, 0x88, 0x02, 0x00, 0x10, 0x00, 0x00, 0x64, 0x00, 0x32]

/-- Invariant of every record produced by the raw-I2C recovery scan. -/
def RawInv (known : List String) (p : String × Monitor) : Prop :=
  p.2.backend = some "raw_ddc" ∧ p.2.i2c_bus = some p.1 ∧ p.1 ∉ known

/-- Desktop service reporting two identical monitors ("DELL U2720Q" twice). -/
def c5CexKde : KdeWorld where
  avail_run := SubOutcome.exited 0 "display1\ndisplay2"
  names_run := SubOutcome.exited 0 "display1\ndisplay2"
  prop_run := fun _ name =>
    if name = "Label" then SubOutcome.exited 0 "DELL U2720Q"
    else SubOutcome.exited 1 ""
  set_run := fun _ _ => SubOutcome.raised

/-- ddcutil reporting one display, model `DEL:U2720Q:ABC123`, on bus 7. -/
def c5CexDdc : DdcWorld where
  detect_run := RunOutcome.ok
    "Display 1\n   I2C bus:  /dev/i2c-7\n   Monitor:      DEL:U2720Q:ABC123"
  caps_run := fun _ => RunOutcome.calledErr
  getvcp_run := fun _ _ => RunOutcome.calledErr
  setvcp_run := fun _ _ _ => RunOutcome.calledErr

def c5CexWorld : World := { kde := c5CexKde, ddc := c5CexDdc, raw := c3World }

/-- Desktop service unavailable; ddcutil exits non-zero. -/
def c5WitKde : KdeWorld where
  avail_run := SubOutcome.exited 1 ""
  names_run := SubOutcome.raised
  prop_run := fun _ _ => SubOutcome.raised
  set_run := fun _ _ => SubOutcome.raised

/-- One NVIDIA adapter on bus 3 answering the DDC probe, with EDID name
"FOO 27" and a well-formed VCP Get reply (current 50, max 100). -/
def c5WitRaw : RawWorld where
  sysfs := ["i2c-3"]
  adapter := fun _ => IORes.ok "NVIDIA i2c adapter 3\n"
  probe_open_ok := fun _ => true
  probe_ioctl_ok := fun _ => true
  probe_read_ok := fun _ => true
  edid_name := fun _ => some "FOO 27"
  vcp_open_ok := fun _ => true
  vcp_ioctl_ok := fun _ => true
  vcp_write_ok := fun _ _ => true
  vcp_resp := fun _ =>
    IORes.ok [0x6E, 0x88, 0x02, 0x00, 0x10, 0x00, 0x00, 0x64, 0x00, 0x32]

def c5WitWorld : World := { kde := c5WitKde, ddc := c4ErrWorld, raw := c5WitRaw }

/-- The record the recovery pass builds on bus 3 in `c5WitWorld`. -/
def c5WitMon : Monitor :=
  { display_num := "3", i2c_bus := some "3", model := "FOO 27",
    label := some "FOO 27", backend := some "raw_ddc",
    max_brightness := some 100, brightness := some 50,
    capabilities := brightnessOnlyCaps }

/- ## Theorems -/

theorem calc_eq_factor_true (mn mx e : ℚ) :
    calculate_brightness true mn mx e = mn + scalingFactor e * (mx - mn) := by
  simp only [calculate_brightness, scalingFactor, Bool.not_true, false_and,
    not_true, if_false, ite_false, Bool.false_eq_true]
  split_ifs <;> ring

theorem calc_eq_factor_false (mn mx e : ℚ) :
    calculate_brightness false mn mx e = mn + simpleFactor e * (mx - mn) := by
  simp only [calculate_brightness, simpleFactor, Bool.not_false, not_false_iff,
    if_true, ite_true, Bool.false_eq_true]
  split_ifs <;> ring

theorem scalingFactor_nonneg (e : ℚ) : 0 ≤ scalingFactor e := by
  unfold scalingFactor; split_ifs <;> linarith

theorem scalingFactor_le_one (e : ℚ) : scalingFactor e ≤ 1 := by
  unfold scalingFactor; split_ifs <;> linarith

theorem simpleFactor_nonneg (e : ℚ) : 0 ≤ simpleFactor e := by
  unfold simpleFactor; split_ifs <;> linarith

theorem simpleFactor_le_one (e : ℚ) : simpleFactor e ≤ 1 := by
  unfold simpleFactor; split_ifs <;> linarith

theorem scalingFactor_mono {a b : ℚ} (h : a ≤ b) :
    scalingFactor a ≤ scalingFactor b := by
  unfold scalingFactor; split_ifs <;> linarith

theorem simpleFactor_mono {a b : ℚ} (h : a ≤ b) :
    simpleFactor a ≤ simpleFactor b := by
  unfold simpleFactor; split_ifs <;> linarith

/-- C7: in elevation-scaling mode, for min_brightness ≤ max_brightness the
computed brightness lies in [min_brightness, max_brightness]; it equals
exactly min_brightness for elevation ≤ −6° and exactly max_brightness for
elevation > 40°. -/
theorem c7_curve_floor_ceiling_range (mn mx e : ℚ) (h : mn ≤ mx) :
    (mn ≤ calculate_brightness true mn mx e ∧ calculate_brightness true mn mx e ≤ mx)
    ∧ (e ≤ -6 → calculate_brightness true mn mx e = mn)
    ∧ (40 < e → calculate_brightness true mn mx e = mx) := by
  have hf0 := scalingFactor_nonneg e
  have hf1 := scalingFactor_le_one e
  rw [calc_eq_factor_true]
  refine ⟨⟨by nlinarith, by nlinarith⟩, ?_, ?_⟩
  · intro he
    have : scalingFactor e = 0 := by
      unfold scalingFactor
      split_ifs
      all_goals linarith
    rw [this]; ring
  · intro he
    have : scalingFactor e = 1 := by
      unfold scalingFactor
      split_ifs
      all_goals linarith
    rw [this]; ring

theorem c7_witness :
    ((2:ℚ) ≤ 10) ∧
    (((2:ℚ) ≤ calculate_brightness true 2 10 (-7) ∧
        calculate_brightness true 2 10 (-7) ≤ 10)
      ∧ ((-7:ℚ) ≤ -6 → calculate_brightness true 2 10 (-7) = 2)
      ∧ ((40:ℚ) < -7 → calculate_brightness true 2 10 (-7) = 10)) :=
  ⟨by norm_num, c7_curve_floor_ceiling_range 2 10 (-7) (by norm_num)⟩

/-- C8: in both curve modes, for fixed min_brightness ≤ max_brightness the
elevation-to-brightness map is monotonically non-decreasing in elevation. -/
theorem c8_curve_monotone (mode : Bool) (mn mx e1 e2 : ℚ)
    (h : mn ≤ mx) (he : e1 ≤ e2) :
    calculate_brightness mode mn mx e1 ≤ calculate_brightness mode mn mx e2 := by
  cases mode
  · rw [calc_eq_factor_false, calc_eq_factor_false]
    have hm := simpleFactor_mono he
    nlinarith [mul_nonneg (sub_nonneg.mpr hm) (sub_nonneg.mpr h)]
  · rw [calc_eq_factor_true, calc_eq_factor_true]
    have hm := scalingFactor_mono he
    nlinarith [mul_nonneg (sub_nonneg.mpr hm) (sub_nonneg.mpr h)]

theorem c8_witness :
    ((2:ℚ) ≤ 10) ∧ ((-10:ℚ) ≤ 50) ∧
    calculate_brightness true 2 10 (-10) ≤ calculate_brightness true 2 10 50 :=
  ⟨by norm_num, by norm_num,
    c8_curve_monotone true 2 10 (-10) 50 (by norm_num) (by norm_num)⟩

/-- C9: the checksum byte of the VCP Get request frame is the XOR of the
destination-address constant 0x6E, source address 0x51, length byte 0x82,
command byte 0x01 and the feature byte; for the Set frame it additionally
XORs the high and low value bytes (length 0x84, command 0x03). -/
theorem c9_raw_checksum (feature value : Nat) :
    (vcp_get_frame feature).getD 4 0 =
      0x6E ^^^ 0x51 ^^^ 0x82 ^^^ 0x01 ^^^ feature
    ∧ (vcp_set_frame feature value).getD 6 0 =
      0x6E ^^^ 0x51 ^^^ 0x84 ^^^ 0x03 ^^^ feature ^^^
        ((value >>> 8) &&& 0xFF) ^^^ (value &&& 0xFF) :=
  ⟨rfl, rfl⟩

/-- C3 counterexample: with the device node absent, `_open_bus` raises *outside*
the `try` block of `_vcp_get`/`_vcp_set`, so `get_brightness`/`set_brightness`
propagate an OSError to the caller instead of returning `None`/`False`. -/
theorem c3_counterexample :
    raw_get_brightness c3World "3" = Except.error PyErr.osError
    ∧ raw_set_brightness c3World "3" 50 = Except.error PyErr.osError
    ∧ raw_get_brightness c3World "3" ≠ Except.ok none
    ∧ raw_set_brightness c3World "3" 50 ≠ Except.ok false := by
  refine ⟨rfl, rfl, fun h => ?_, fun h => ?_⟩
  · exact Except.noConfusion ((show raw_get_brightness c3World "3" =
      Except.error PyErr.osError from rfl).symm.trans h)
  · exact Except.noConfusion ((show raw_set_brightness c3World "3" 50 =
      Except.error PyErr.osError from rfl).symm.trans h)

/-- C3 as amended: once the device node has been opened successfully, every
further OS-level failure inside `_vcp_get`/`_vcp_set` is caught: the
operations always return a value (`None`/`False` on failure) and never raise. -/
theorem c3_error_containment_amended (w : RawWorld) (bus : Int)
    (feature value : Nat) (hopen : w.vcp_open_ok bus = true) :
    (∃ r, vcp_get w bus feature = Except.ok r)
    ∧ (∃ b, vcp_set w bus feature value = Except.ok b)
    ∧ (w.vcp_ioctl_ok bus = false →
        vcp_get w bus feature = Except.ok none
        ∧ vcp_set w bus feature value = Except.ok false) := by
  unfold vcp_get vcp_set
  simp only [hopen, not_true, if_false, ite_false, Bool.true_eq_false,
    not_false_iff, if_true, ite_true]
  refine ⟨⟨_, rfl⟩, ⟨_, rfl⟩, fun hioctl => ?_⟩
  simp [hioctl]

theorem c3_witness :
    c3OkWorld.vcp_open_ok 5 = true ∧
    ((∃ r, vcp_get c3OkWorld 5 0x10 = Except.ok r)
     ∧ (∃ b, vcp_set c3OkWorld 5 0x10 30 = Except.ok b)
     ∧ (c3OkWorld.vcp_ioctl_ok 5 = false →
         vcp_get c3OkWorld 5 0x10 = Except.ok none
         ∧ vcp_set c3OkWorld 5 0x10 30 = Except.ok false)) :=
  ⟨rfl, c3_error_containment_amended c3OkWorld 5 0x10 30 rfl⟩

/-- C4 counterexample: when the external tool is not installed,
`subprocess.run` raises `FileNotFoundError`, which is not a
`CalledProcessError` and therefore is not caught: `detect_monitors`,
`get_vcp_value` and `set_vcp_value` all propagate the exception instead of
returning `{}` / `None` / `False`. -/
theorem c4_counterexample :
    ddc_detect_monitors c4World = Except.error PyErr.fileNotFound
    ∧ ddc_get_vcp_value c4World "7" "10" = Except.error PyErr.fileNotFound
    ∧ ddc_set_vcp_value c4World "7" "10" 50 = Except.error PyErr.fileNotFound :=
  ⟨rfl, rfl, rfl⟩

/-- C4 as amended: a *non-zero exit* of the installed tool is caught
(`CalledProcessError`, because of `check=True`) and converted to the sentinel:
empty monitor map, `None`, `False`.  Only the missing-tool case raises, and no
timeout is configured, so a timeout outcome cannot occur at all. -/
theorem c4_tool_failure_amended (w : DdcWorld) (bus code : String) (value : Int) :
    (w.detect_run = RunOutcome.calledErr →
      ddc_detect_monitors w = Except.ok [])
    ∧ (w.getvcp_run bus code = RunOutcome.calledErr →
      ddc_get_vcp_value w bus code = Except.ok none)
    ∧ (w.setvcp_run bus code (pyStr value) = RunOutcome.calledErr →
      ddc_set_vcp_value w bus code value = Except.ok false) := by
  refine ⟨fun h => ?_, fun h => ?_, fun h => ?_⟩
  · unfold ddc_detect_monitors; rw [h]
  · unfold ddc_get_vcp_value; rw [h]
  · unfold ddc_set_vcp_value; rw [h]

theorem c4_witness :
    ddc_detect_monitors c4ErrWorld = Except.ok []
    ∧ ddc_get_vcp_value c4ErrWorld "7" "10" = Except.ok none
    ∧ ddc_set_vcp_value c4ErrWorld "7" "10" 50 = Except.ok false :=
  ⟨(c4_tool_failure_amended c4ErrWorld "7" "10" 50).1 rfl,
   (c4_tool_failure_amended c4ErrWorld "7" "10" 50).2.1 rfl,
   (c4_tool_failure_amended c4ErrWorld "7" "10" 50).2.2 rfl⟩

theorem pyIntDefault_ok {o : Option String} {d : Int} (h : numericReply o) :
    ∃ n, pyIntDefault o d = Except.ok n := by
  cases o with
  | none => exact ⟨d, rfl⟩
  | some s =>
    by_cases hs : s = ""
    · subst hs; exact ⟨d, by simp [pyIntDefault]⟩
    · have hi := h s rfl hs
      cases hpi : pyInt s with
      | none => rw [hpi] at hi; simp at hi
      | some n => exact ⟨n, by simp [pyIntDefault, pyIntE, hs, hpi]⟩

theorem kde_detect_go_ok (w : KdeWorld)
    (h : ∀ idx, numericReply (kde_get_property w idx "MaxBrightness")
        ∧ numericReply (kde_get_property w idx "Brightness")) :
    ∀ (names : List String) (acc : List (String × Monitor)),
      ∃ l, kde_detect_go w names acc = Except.ok l := by
  intro names
  induction names with
  | nil => intro acc; exact ⟨acc, rfl⟩
  | cons name rest ih =>
    intro acc
    rw [kde_detect_go]
    split
    · exact ih acc
    · rename_i idx _
      split
      · exact ih acc
      · obtain ⟨n1, h1⟩ := pyIntDefault_ok (o := kde_get_property w idx "MaxBrightness")
          (d := 10000) (h idx).1
        obtain ⟨n2, h2⟩ := pyIntDefault_ok (o := kde_get_property w idx "Brightness")
          (d := 0) (h idx).2
        rw [h1, h2]
        exact ih _

/-- C10 counterexample: a truthy non-numeric `MaxBrightness` reply makes
`detect_monitors` raise `ValueError` (the `int()` call is not guarded), and a
stored `MaxBrightness` of 0 makes `get_brightness` raise `ZeroDivisionError` —
both escape to the caller. -/
theorem c10_counterexample :
    kde_detect_monitors c10World = Except.error PyErr.valueError
    ∧ kde_get_brightness [("kde_1", c10ZeroMon)] c10ZeroWorld "kde_1" =
        Except.error PyErr.zeroDivision :=
  ⟨rfl, rfl⟩

/-- C10 as amended: the desktop-service driver never raises provided the
truthy MaxBrightness/Brightness property replies are numeric and (for
`get_brightness`) the stored maximum is non-zero; all subprocess failures are
contained (`detect` skips failing displays, `set_brightness` returns `False`
when its service call raises). -/
theorem c10_never_fatal_amended (w : KdeWorld) :
    ((∀ idx, numericReply (kde_get_property w idx "MaxBrightness")
        ∧ numericReply (kde_get_property w idx "Brightness")) →
      ∃ l, kde_detect_monitors w = Except.ok l)
    ∧ (∀ (mons : List (String × Monitor)) (id : String) (m : Monitor),
        dictFind? mons id = some m →
        m.max_brightness.getD 0 ≠ 0 →
        parsesReply (kde_get_property w (m.kde_index.getD 0) "Brightness") →
        ∃ r, kde_get_brightness mons w id = Except.ok r)
    ∧ (∀ (mons : List (String × Monitor)) (id : String) (p : Int) (m : Monitor),
        dictFind? mons id = some m →
        w.set_run (m.kde_index.getD 0)
            (Int.tdiv (p * m.max_brightness.getD 0) 100) = SubOutcome.raised →
        kde_set_brightness mons w id p = false) := by
  refine ⟨fun h => kde_detect_go_ok w h _ _, ?_, ?_⟩
  · intro mons id m hm hmax hnum
    cases hp : kde_get_property w (m.kde_index.getD 0) "Brightness" with
    | none => exact ⟨none, by simp [kde_get_brightness, hm, hp]⟩
    | some s =>
      have hi := hnum s hp
      cases hpi : pyInt s with
      | none => rw [hpi] at hi; simp at hi
      | some n =>
        exact ⟨some (Int.tdiv (n * 100) (m.max_brightness.getD 0)),
          by simp [kde_get_brightness, hm, hp, pyIntE, hpi, hmax]⟩
  · intro mons id p m hm hr
    simp [kde_set_brightness, hm, hr]

theorem c10_witness :
    (∃ l, kde_detect_monitors kdeRaisedWorld = Except.ok l)
    ∧ (∃ r, kde_get_brightness [("kde_1", kdeSampleMon)] kdeRaisedWorld "kde_1" =
        Except.ok r)
    ∧ kde_set_brightness [("kde_1", kdeSampleMon)] kdeRaisedWorld "kde_1" 40 = false := by
  refine ⟨?_, ?_, ?_⟩
  · exact (c10_never_fatal_amended kdeRaisedWorld).1
      (fun idx => ⟨(fun s h hs => nomatch h), (fun s h hs => nomatch h)⟩)
  · exact (c10_never_fatal_amended kdeRaisedWorld).2.1 [("kde_1", kdeSampleMon)] "kde_1"
      kdeSampleMon rfl (by decide) (fun s h => nomatch h)
  · exact (c10_never_fatal_amended kdeRaisedWorld).2.2 [("kde_1", kdeSampleMon)] "kde_1" 40
      kdeSampleMon rfl rfl

theorem list_any_congr {α : Type} (f g : α → Bool) (h : ∀ a, f a = g a) :
    ∀ l : List α, l.any f = l.any g := by
  intro l
  induction l with
  | nil => rfl
  | cons a t ih => simp only [List.any_cons, h a, ih]

/-- The code's token test agrees with the claim's description. -/
theorem link_match_eq_spec (ddc_model kde_label : String) :
    link_match ddc_model kde_label = spec_link_match kde_label ddc_model := by
  unfold link_match spec_link_match
  exact list_any_congr _ _ (fun part => rfl) _

/-- C1: the linking pass links a desktop-service record to the *first*
bus-level candidate, in encounter order, whose model token-matches the
record's label; that candidate's `i2c_bus` is copied (and its capabilities
when non-empty), the record's other fields — `backend` included — are kept,
and no later candidate affects the result.  When no candidate matches, the
record is unchanged. -/
theorem c1_linking_first_match (kde_info : Monitor) (ddc_list : List Monitor) :
    match ddc_list.find?
        (fun d => spec_link_match (kde_info.label.getD "") d.model) with
    | some d =>
      link_scan kde_info ddc_list =
        { kde_info with
          i2c_bus := d.i2c_bus
          ddc_available := true
          capabilities :=
            if d.capabilities.truthy then d.capabilities
            else kde_info.capabilities }
    | none => link_scan kde_info ddc_list = kde_info := by
  induction ddc_list with
  | nil => simp [link_scan]
  | cons d rest ih =>
    by_cases hp : spec_link_match (kde_info.label.getD "") d.model = true
    · simp only [List.find?, hp]
      simp only [link_scan, link_match_eq_spec, hp, if_true, ite_true]
    · have hp' : spec_link_match (kde_info.label.getD "") d.model = false := by
        simpa using hp
      simp only [List.find?, hp']
      simpa only [link_scan, link_match_eq_spec, hp', if_false, ite_false,
        Bool.false_eq_true] using ih

/-- C2: every dispatch operation of the hybrid controller answers an unknown
monitor id with its failure value immediately and performs no backend call
(the call log is empty). -/
theorem c2_unknown_id_dispatch (st : HybridState) (w : World)
    (monitor_id feature_code : String) (p v : Int)
    (h : dictFind? st.monitors monitor_id = none) :
    hybrid_get_brightness st w monitor_id = (Except.ok none, [])
    ∧ hybrid_set_brightness st w monitor_id p = (Except.ok false, [])
    ∧ hybrid_get_vcp_value st w monitor_id feature_code = (Except.ok none, [])
    ∧ hybrid_set_vcp_value st w monitor_id feature_code v = (Except.ok false, [])
    ∧ hybrid_get_monitor_capabilities st w monitor_id = (Except.ok Caps.empty, []) := by
  refine ⟨?_, ?_, ?_, ?_, ?_⟩ <;>
    simp [hybrid_get_brightness, hybrid_set_brightness, hybrid_get_vcp_value,
      hybrid_set_vcp_value, hybrid_get_monitor_capabilities, h]

theorem c2_witness :
    dictFind? c2State.monitors "ghost" = none
    ∧ (hybrid_get_brightness c2State c2World "ghost" = (Except.ok none, [])
      ∧ hybrid_set_brightness c2State c2World "ghost" 40 = (Except.ok false, [])
      ∧ hybrid_get_vcp_value c2State c2World "ghost" "12" = (Except.ok none, [])
      ∧ hybrid_set_vcp_value c2State c2World "ghost" "12" 1 = (Except.ok false, [])
      ∧ hybrid_get_monitor_capabilities c2State c2World "ghost" =
          (Except.ok Caps.empty, [])) :=
  ⟨rfl, c2_unknown_id_dispatch c2State c2World "ghost" "12" 40 1 rfl⟩

/-- C6 counterexample: on a raw-I2C monitor with native maximum 255,
`set_brightness(id, 50)` writes the VCP value 50 itself (frame value bytes
0/50), not the rescaled `int(50 * 255 / 100) = 127` that the claim's
"for every backend" rescale would require. -/
theorem c6_counterexample :
    hybrid_set_brightness c6State c6World "9" 50 =
      (Except.ok true, [BCall.rawSet "9" 50])
    ∧ (vcp_set_frame 0x10 50).getD 4 0 = 0
    ∧ (vcp_set_frame 0x10 50).getD 5 0 = 50
    ∧ spec_rescale_to_native 50 (c6RawMon.max_brightness.getD 0) = 127
    ∧ (50 : Nat) ≠ 127 :=
  ⟨rfl, rfl, rfl, rfl, by decide⟩

/-- C6 as amended: the desktop-service driver rescales in both directions with
truncation toward zero (and that truncation is the floor characterization of
the linear rescale); the bus-level driver hands the percent over unchanged —
the identity rescale, since its native scale is 100; the raw-I2C driver also
passes the percent (and returns the native current value) unchanged, which
matches the claim's rescale only when the native maximum is 100. -/
theorem c6_unit_conversion_amended :
    (∀ (mons : List (String × Monitor)) (w : KdeWorld) (id : String)
        (p : Int) (m : Monitor),
      dictFind? mons id = some m →
      kde_set_brightness mons w id p =
        sub_ok (w.set_run (m.kde_index.getD 0)
          (spec_rescale_to_native p (m.max_brightness.getD 0))))
    ∧ (∀ (mons : List (String × Monitor)) (w : KdeWorld) (id : String)
        (m : Monitor) (s : String) (n : Int),
      dictFind? mons id = some m →
      kde_get_property w (m.kde_index.getD 0) "Brightness" = some s →
      pyInt s = some n →
      m.max_brightness.getD 0 ≠ 0 →
      kde_get_brightness mons w id =
        Except.ok (some (spec_rescale_to_percent n (m.max_brightness.getD 0))))
    ∧ (∀ p scale : Int, 0 ≤ p → 0 ≤ scale →
        100 * spec_rescale_to_native p scale ≤ p * scale
        ∧ p * scale < 100 * (spec_rescale_to_native p scale + 1))
    ∧ (∀ p : Int, spec_rescale_to_native p 100 = p
        ∧ spec_rescale_to_percent p 100 = p)
    ∧ (∀ p : Nat, p < 65536 →
        (vcp_set_frame 0x10 p).getD 4 0 * 256 + (vcp_set_frame 0x10 p).getD 5 0 = p)
    ∧ (∀ (w : RawWorld) (bus_str : String) (bus cur mx : Int),
        pyInt bus_str = some bus →
        vcp_get w bus 0x10 = Except.ok (some (cur, mx)) →
        raw_get_brightness w bus_str = Except.ok (some cur)) := by
  refine ⟨?_, ?_, ?_, ?_, ?_, ?_⟩
  · intro mons w id p m hm
    simp only [kde_set_brightness, hm, spec_rescale_to_native, sub_ok]
  · intro mons w id m s n hm hp hpi hmax
    simp [kde_get_brightness, hm, hp, pyIntE, hpi, hmax, spec_rescale_to_percent]
  · intro p scale hp hs
    unfold spec_rescale_to_native
    rw [Int.tdiv_eq_ediv (mul_nonneg hp hs) (by norm_num)]
    omega
  · intro p
    exact ⟨Int.mul_tdiv_cancel p (by norm_num),
      Int.mul_tdiv_cancel p (by norm_num)⟩
  · intro p hlt
    show ((p >>> 8) &&& 0xFF) * 256 + (p &&& 0xFF) = p
    have h1 : p >>> 8 = p / 256 := by
      have := Nat.shiftRight_eq_div_pow p 8
      norm_num at this
      exact this
    have h2 : ∀ x : Nat, x &&& 0xFF = x % 256 := fun x => by
      have := Nat.and_pow_two_sub_one_eq_mod x 8
      norm_num at this
      exact this
    rw [h1, h2, h2]
    omega
  · intro w bus_str bus cur mx hb hv
    simp [raw_get_brightness, hb, hv, Except.map]

theorem c6_witness :
    kde_set_brightness [("kde_1", kdeSampleMon)] kdeRaisedWorld "kde_1" 40 =
      sub_ok (kdeRaisedWorld.set_run 1 (spec_rescale_to_native 40 100))
    ∧ kde_get_brightness [("kde_1", kdeSampleMon)] c6KdeWorld "kde_1" =
      Except.ok (some (spec_rescale_to_percent 40 100))
    ∧ (100 * spec_rescale_to_native 33 255 ≤ 33 * 255
        ∧ 33 * 255 < 100 * (spec_rescale_to_native 33 255 + 1))
    ∧ (spec_rescale_to_native 42 100 = 42 ∧ spec_rescale_to_percent 42 100 = 42)
    ∧ (vcp_set_frame 0x10 300).getD 4 0 * 256 + (vcp_set_frame 0x10 300).getD 5 0 = 300
    ∧ raw_get_brightness c6GetRawWorld "9" = Except.ok (some 50) :=
  ⟨c6_unit_conversion_amended.1 [("kde_1", kdeSampleMon)] kdeRaisedWorld "kde_1" 40
      kdeSampleMon rfl,
   c6_unit_conversion_amended.2.1 [("kde_1", kdeSampleMon)] c6KdeWorld "kde_1"
      kdeSampleMon "40" 40 rfl rfl rfl (by decide),
   c6_unit_conversion_amended.2.2.1 33 255 (by norm_num) (by norm_num),
   c6_unit_conversion_amended.2.2.2.1 42,
   c6_unit_conversion_amended.2.2.2.2.1 300 (by norm_num),
   c6_unit_conversion_amended.2.2.2.2.2 c6GetRawWorld "9" 9 50 100 rfl rfl⟩

theorem mem_dictSet {α : Type} (l : List (String × α)) (k : String) (v : α)
    (p : String × α) (hp : p ∈ dictSet l k v) : p = (k, v) ∨ p ∈ l := by
  unfold dictSet at hp
  split at hp
  · rcases List.mem_map.mp hp with ⟨q, hq, heq⟩
    by_cases h : q.1 = k
    · left; rw [← heq]; simp [h]
    · right; rw [← heq]; simpa [h] using hq
  · rcases List.mem_append.mp hp with h | h
    · exact Or.inr h
    · exact Or.inl (List.mem_singleton.mp h)

theorem mem_foldl_dictSet {α : Type} (rs : List (String × α)) :
    ∀ (base : List (String × α)) (p : String × α),
      p ∈ rs.foldl (fun acc q => dictSet acc q.1 q.2) base →
      p ∈ base ∨ p ∈ rs := by
  induction rs with
  | nil => intro base p hp; exact Or.inl hp
  | cons r t ih =>
    intro base p hp
    simp only [List.foldl_cons] at hp
    rcases ih (dictSet base r.1 r.2) p hp with h | h
    · rcases mem_dictSet _ _ _ _ h with h2 | h2
      · right; rw [h2]; exact List.mem_cons_self _ _
      · exact Or.inl h2
    · exact Or.inr (List.mem_cons_of_mem _ h)

theorem dictUpdate_backend_none (l : List (String × Monitor)) (k : String)
    (f : Monitor → Monitor) (hf : ∀ m, (f m).backend = m.backend)
    (hl : ∀ p ∈ l, p.2.backend = none) :
    ∀ p ∈ dictUpdate l k f, p.2.backend = none := by
  intro p hp
  rcases List.mem_map.mp hp with ⟨q, hq, heq⟩
  by_cases h : q.1 = k
  · rw [← heq]; simp only [h, if_true, ite_true]; rw [hf q.2]; exact hl q hq
  · rw [← heq]; simp only [h, if_false, ite_false]; exact hl q hq

theorem detect_unmapped_go_inv (w : RawWorld) (known : List String) :
    ∀ (entries : List String) (acc : List (String × Monitor)),
      (∀ p ∈ acc, RawInv known p) →
      ∀ p ∈ detect_unmapped_go w known entries acc, RawInv known p := by
  intro entries
  induction entries with
  | nil => intro acc hacc p hp; exact hacc p hp
  | cons e rest ih =>
    intro acc hacc p hp
    rw [detect_unmapped_go] at hp
    split at hp
    · exact ih acc hacc p hp
    · split at hp
      · exact hacc p hp
      · rename_i bus
        split at hp
        · exact ih acc hacc p hp
        · rename_i hknown
          split at hp
          · exact ih acc hacc p hp
          · split at hp
            · exact ih acc hacc p hp
            · split at hp
              · exact ih acc hacc p hp
              · split at hp
                · exact hacc p hp
                · exact ih acc hacc p hp
                · refine ih _ ?_ p hp
                  intro q hq
                  rcases mem_dictSet _ _ _ _ hq with h2 | h2
                  · subst h2; exact ⟨rfl, rfl, hknown⟩
                  · exact hacc q h2

theorem kde_detect_go_backend (w : KdeWorld) :
    ∀ (names : List String) (acc l : List (String × Monitor)),
      (∀ p ∈ acc, p.2.backend = some "kde") →
      kde_detect_go w names acc = Except.ok l →
      ∀ p ∈ l, p.2.backend = some "kde" := by
  intro names
  induction names with
  | nil =>
    intro acc l hacc heq p hp
    rw [kde_detect_go] at heq
    cases heq
    exact hacc p hp
  | cons name rest ih =>
    intro acc l hacc heq p hp
    rw [kde_detect_go] at heq
    split at heq
    · exact ih acc l hacc heq p hp
    · split at heq
      · exact ih acc l hacc heq p hp
      · split at heq
        · cases heq
        · split at heq
          · cases heq
          · refine ih _ l ?_ heq p hp
            intro q hq
            rcases mem_dictSet _ _ _ _ hq with h2 | h2
            · subst h2; rfl
            · exact hacc q h2

theorem parse_detect_go_backend :
    ∀ (lines : List String) (cur : Option String)
      (mons : List (String × Monitor)),
      (∀ p ∈ mons, p.2.backend = none) →
      ∀ p ∈ parse_detect_go lines cur mons, p.2.backend = none := by
  intro lines
  induction lines with
  | nil => intro cur mons h p hp; exact h p hp
  | cons line rest ih =>
    intro cur mons h p hp
    rw [parse_detect_go.eq_def] at hp
    dsimp only at hp
    split at hp
    · exact ih _ mons h p hp
    · split at hp
      · split at hp
        · refine ih _ _ ?_ p hp
          intro q hq
          rcases mem_dictSet _ _ _ _ hq with h2 | h2
          · subst h2; rfl
          · exact h q h2
        · exact ih _ mons h p hp
      · split at hp
        · exact ih _ mons h p hp
        · split at hp
          · split at hp
            · refine ih _ _ (dictUpdate_backend_none _ _ _ ?_ h) p hp
              intro m
              rfl
            · exact ih _ mons h p hp
          · split at hp
            · split at hp
              · refine ih _ _ (dictUpdate_backend_none _ _ _ ?_ h) p hp
                intro m
                rfl
              · exact ih _ mons h p hp
            · exact ih _ mons h p hp

theorem attach_caps_one_backend (w : DdcWorld) (m m' : Monitor)
    (h : attach_caps_one w m = Except.ok m') : m'.backend = m.backend := by
  unfold attach_caps_one at h
  split at h
  · split at h
    · split at h
      · cases h
      · cases h; rfl
    · cases h; rfl
  · cases h; rfl

theorem attach_caps_backend (w : DdcWorld) :
    ∀ (l l' : List (String × Monitor)), attach_caps w l = Except.ok l' →
      (∀ p ∈ l, p.2.backend = none) → ∀ p ∈ l', p.2.backend = none := by
  intro l
  induction l with
  | nil =>
    intro l' h hl p hp
    rw [attach_caps] at h
    cases h
    cases hp
  | cons km t ih =>
    obtain ⟨k, m⟩ := km
    intro l' h hl p hp
    rw [attach_caps] at h
    split at h
    · cases h
    · rename_i m' hone
      split at h
      · cases h
      · rename_i t' ht
        cases h
        rcases List.mem_cons.mp hp with h2 | h2
        · subst h2
          show Monitor.backend m' = none
          rw [attach_caps_one_backend w m m' hone]
          exact hl (k, m) (List.mem_cons_self _ _)
        · exact ih t' ht (fun q hq => hl q (List.mem_cons_of_mem _ hq)) p h2

theorem ddc_detect_backend (w : DdcWorld) (l : List (String × Monitor))
    (h : ddc_detect_monitors w = Except.ok l) :
    ∀ p ∈ l, p.2.backend = none := by
  unfold ddc_detect_monitors at h
  split at h
  · cases h
  · cases h; intro p hp; cases hp
  · exact attach_caps_backend w _ l h
      (parse_detect_go_backend _ none [] (fun p hp => by cases hp))

theorem link_scan_backend (m : Monitor) :
    ∀ L : List Monitor, (link_scan m L).backend = m.backend := by
  intro L
  induction L with
  | nil => rfl
  | cons d rest ih =>
    rw [link_scan]
    split
    · rfl
    · exact ih

theorem mem_claimed_buses (mons : List (String × Monitor)) (p : String × Monitor)
    (s : String) (hp : p ∈ mons) (hs : p.2.i2c_bus = some s) (hne : s ≠ "") :
    s ∈ claimed_buses mons := by
  unfold claimed_buses
  refine List.mem_filterMap.mpr ⟨p, hp, ?_⟩
  rw [hs]
  simp [hne]

theorem c5_core (base : List (String × Monitor)) (rw0 : RawWorld)
    (hbase : ∀ p ∈ base, p.2.backend ≠ some "raw_ddc")
    (mons : List (String × Monitor))
    (hmons : mons = (detect_unmapped_monitors rw0 (claimed_buses base)).foldl
        (fun acc q => dictSet acc q.1 q.2) base) :
    ∀ p ∈ mons, p.2.backend = some "raw_ddc" →
      p.2.i2c_bus = some p.1 ∧
      ∀ q ∈ mons, q.1 ≠ p.1 → optTruthy q.2.i2c_bus = true →
        q.2.i2c_bus ≠ p.2.i2c_bus := by
  subst hmons
  intro p hp hpb
  have hrawinv : ∀ r ∈ detect_unmapped_monitors rw0 (claimed_buses base),
      RawInv (claimed_buses base) r :=
    detect_unmapped_go_inv rw0 (claimed_buses base) (pySorted rw0.sysfs) []
      (fun q hq => by cases hq)
  have hpmem : p ∈ detect_unmapped_monitors rw0 (claimed_buses base) := by
    rcases mem_foldl_dictSet _ _ _ hp with h | h
    · exact absurd hpb (hbase p h)
    · exact h
  obtain ⟨hb, hbus, hnk⟩ := hrawinv p hpmem
  refine ⟨hbus, ?_⟩
  intro q hq hne htr heq
  rcases mem_foldl_dictSet _ _ _ hq with h | h
  · cases hqb : q.2.i2c_bus with
    | none => rw [hqb] at htr; simp [optTruthy] at htr
    | some s =>
      have hs : s ≠ "" := by rw [hqb] at htr; simpa [optTruthy] using htr
      have hsmem : s ∈ claimed_buses base := mem_claimed_buses base q s h hqb hs
      rw [hqb, hbus] at heq
      cases heq
      exact hnk hsmem
  · obtain ⟨_, hqbus, _⟩ := hrawinv q h
    rw [hqbus, hbus] at heq
    injection heq with h3
    exact hne h3

/-- C5 as amended: raw-I2C records added by the recovery pass never share an
`i2c_bus` with any other record of the final registry — their bus is their
key, and it was excluded from the claimed-bus set; but desktop-service records
linked by the label heuristic can share one bus (see the counterexample), so
the claimed global uniqueness fails. -/
theorem c5_bus_uniqueness_amended (w : World) (mons : List (String × Monitor))
    (hdet : hybrid_detect_monitors w = Except.ok mons) :
    ∀ p ∈ mons, p.2.backend = some "raw_ddc" →
      p.2.i2c_bus = some p.1 ∧
      ∀ q ∈ mons, q.1 ≠ p.1 → optTruthy q.2.i2c_bus = true →
        q.2.i2c_bus ≠ p.2.i2c_bus := by
  unfold hybrid_detect_monitors at hdet
  split at hdet
  · cases hdet
  · rename_i kde_mons hkde
    split at hdet
    · cases hdet
    · rename_i ddc_mons hddc
      have hkde_backend : ∀ p ∈ kde_mons, p.2.backend = some "kde" := by
        split at hkde
        · exact kde_detect_go_backend w.kde (kde_get_display_names w.kde) []
            kde_mons (fun q hq => by cases hq) hkde
        · cases hkde; intro p hp; cases hp
      dsimp only at hdet
      rw [Except.ok.injEq] at hdet
      refine c5_core _ w.raw ?_ mons hdet.symm
      intro p hp
      split at hp
      · rcases List.mem_map.mp hp with ⟨q, hq, heq⟩
        rw [← heq]
        exact (show (some "ddc" : Option String) ≠ some "raw_ddc" by decide)
      · rcases List.mem_map.mp hp with ⟨q, hq, heq⟩
        rw [← heq]
        show (link_scan q.2 (ddc_mons.map (fun r => r.2))).backend ≠ some "raw_ddc"
        rw [link_scan_backend, hkde_backend q hq]
        exact (show (some "kde" : Option String) ≠ some "raw_ddc" by decide)

/-- C5 counterexample: both desktop-service records label-match the single
ddcutil candidate, so the linking pass copies bus "7" onto *both* — two
distinct records of one detection pass carrying the same `i2c_bus`. -/
theorem c5_counterexample :
    (hybrid_detect_monitors c5CexWorld).toOption.map
        (List.map (fun p => (p.1, p.2.i2c_bus))) =
      some [("kde_1", some "7"), ("kde_2", some "7")]
    ∧ ("kde_1" : String) ≠ "kde_2" :=
  ⟨by decide, by decide⟩

theorem c5_witness :
    hybrid_detect_monitors c5WitWorld = Except.ok [("3", c5WitMon)]
    ∧ (c5WitMon.i2c_bus = some "3"
      ∧ ∀ q ∈ [("3", c5WitMon)], q.1 ≠ "3" → optTruthy q.2.i2c_bus = true →
          q.2.i2c_bus ≠ c5WitMon.i2c_bus) := by
  have h1 : hybrid_detect_monitors c5WitWorld = Except.ok [("3", c5WitMon)] := by
    rfl
  exact ⟨h1, c5_bus_uniqueness_amended c5WitWorld [("3", c5WitMon)] h1
    ("3", c5WitMon) (List.mem_singleton.mpr rfl) rfl⟩
